import Mathlib

/-!
Verification development for the polyester image-layer client
(`polyester/image.py`): layer construction and structural identity
(`Layer.__init__`), the join/polling protocol and resolver
(`Layer.create_or_get`), the containment check (`Layer.is_inside`) and the
`DebianSlim` presets.  Byte strings are modelled as `List Nat`, Python's
insertion-ordered dicts as association lists, and the remote service as an
explicit oracle whose responses are passed in as data.
-/

namespace Polyester

/-- A byte string (each entry is one byte value). -/
abbrev Bytes := List Nat

/-! ### SHA-256 content hashing

`get_sha256_hex_from_content` lives in `polyester/mount.py`, which is not part
of the sources at hand; per the spec (§4.1 ContentIdentity) it is the
deterministic lowercase-hexadecimal SHA-256 digest of the given byte content.
We implement SHA-256 (FIPS 180-4) over `Nat` with explicit reduction
modulo `2^32`. -/

/-- Truncate to a 32-bit word. -/
def w32 (x : Nat) : Nat := x % 4294967296

/-- Right rotation of a 32-bit word by `n` bits. -/
def rotr32 (n x : Nat) : Nat := (x >>> n) ||| w32 (x <<< (32 - n))

/-- Bitwise complement of a 32-bit word. -/
def not32 (x : Nat) : Nat := x ^^^ 4294967295

/-- SHA-256 `Ch` function. -/
def shaCh (x y z : Nat) : Nat := (x &&& y) ^^^ (not32 x &&& z)

/-- SHA-256 `Maj` function. -/
def shaMaj (x y z : Nat) : Nat := (x &&& y) ^^^ (x &&& z) ^^^ (y &&& z)

/-- SHA-256 Σ₀. -/
def bigSig0 (x : Nat) : Nat := rotr32 2 x ^^^ rotr32 13 x ^^^ rotr32 22 x

/-- SHA-256 Σ₁. -/
def bigSig1 (x : Nat) : Nat := rotr32 6 x ^^^ rotr32 11 x ^^^ rotr32 25 x

/-- SHA-256 σ₀. -/
def smallSig0 (x : Nat) : Nat := rotr32 7 x ^^^ rotr32 18 x ^^^ (x >>> 3)

/-- SHA-256 σ₁. -/
def smallSig1 (x : Nat) : Nat := rotr32 17 x ^^^ rotr32 19 x ^^^ (x >>> 10)

/-- The 64 SHA-256 round constants. -/
def K64 : List Nat :=
  [1116352408, 1899447441, 3049323471, 3921009573, 961987163,
   1508970993, 2453635748, 2870763221, 3624381080, 310598401,
   607225278, 1426881987, 1925078388, 2162078206, 2614888103,
   3248222580, 3835390401, 4022224774, 264347078, 604807628,
   770255983, 1249150122, 1555081692, 1996064986, 2554220882,
   2821834349, 2952996808, 3210313671, 3336571891, 3584528711,
   113926993, 338241895, 666307205, 773529912, 1294757372,
   1396182291, 1695183700, 1986661051, 2177026350, 2456956037,
   2730485921, 2820302411, 3259730800, 3345764771, 3516065817,
   3600352804, 4094571909, 275423344, 430227734, 506948616,
   659060556, 883997877, 958139571, 1322822218, 1537002063,
   1747873779, 1955562222, 2024104815, 2227730452, 2361852424,
   2428436474, 2756734187, 3204031479, 3329325298]

/-- The SHA-256 initial hash value. -/
def H0 : List Nat :=
  [1779033703, 3144134277, 1013904242, 2773480762,
   1359893119, 2600822924, 528734635, 1541459225]

/-- Big-endian byte representation of `n` in exactly `k` bytes. -/
def toBytesBE : Nat → Nat → Bytes
  | 0, _ => []
  | k + 1, n => toBytesBE k (n / 256) ++ [n % 256]

/-- SHA-256 message padding: append `0x80`, zeros, and the 64-bit
big-endian bit length, reaching a multiple of 64 bytes. -/
def padMessage (msg : Bytes) : Bytes :=
  let len := msg.length
  let zeros := (119 - len % 64) % 64
  msg ++ 128 :: List.replicate zeros 0 ++ toBytesBE 8 (len * 8)

/-- Group bytes into big-endian 32-bit words. -/
def bytesToWords : Bytes → List Nat
  | a :: b :: c :: d :: rest =>
      (((a * 256 + b) * 256 + c) * 256 + d) :: bytesToWords rest
  | _ => []

/-- Message-schedule extension, kept most-recent-first: prepend `n` further
words to the reversed schedule `acc`. -/
def sched : Nat → List Nat → List Nat
  | 0, acc => acc
  | n + 1, acc =>
      sched n (w32 (smallSig1 (acc.getD 1 0) + acc.getD 6 0 +
        smallSig0 (acc.getD 14 0) + acc.getD 15 0) :: acc)

/-- One SHA-256 round on the working state `[a,b,c,d,e,f,g,h]`. -/
def shaRound (st : List Nat) (k w : Nat) : List Nat :=
  match st with
  | [a, b, c, d, e, f, g, hh] =>
      let t1 := w32 (hh + bigSig1 e + shaCh e f g + k + w)
      let t2 := w32 (bigSig0 a + shaMaj a b c)
      [w32 (t1 + t2), a, b, c, w32 (d + t1), e, f, g]
  | other => other

/-- Compress one 16-word block into the hash state. -/
def sha256compress (h : List Nat) (block : List Nat) : List Nat :=
  let ws := (sched 48 block.reverse).reverse
  let st := (K64.zip ws).foldl (fun s kw => shaRound s kw.1 kw.2) h
  h.zipWith (fun x y => w32 (x + y)) st

/-- Group a word sequence into complete 16-word blocks. -/
def wordsToBlocks : List Nat → List (List Nat)
  | w0 :: w1 :: w2 :: w3 :: w4 :: w5 :: w6 :: w7 ::
    w8 :: w9 :: w10 :: w11 :: w12 :: w13 :: w14 :: w15 :: rest =>
      [w0, w1, w2, w3, w4, w5, w6, w7, w8, w9, w10, w11, w12, w13, w14, w15] ::
        wordsToBlocks rest
  | _ => []

/-- Fold the compression function over all 16-word blocks. -/
def sha256blocks (h : List Nat) (ws : List Nat) : List Nat :=
  (wordsToBlocks ws).foldl sha256compress h

/-- Split a 32-bit word into 4 big-endian bytes. -/
def wordToBytes (w : Nat) : Bytes :=
  [w / 16777216 % 256, w / 65536 % 256, w / 256 % 256, w % 256]

/-- SHA-256 digest of a byte string, as 32 bytes. -/
def sha256 (msg : Bytes) : Bytes :=
  (sha256blocks H0 (bytesToWords (padMessage msg))).flatMap wordToBytes

/-- Lowercase hexadecimal digit. -/
def hexDigit (n : Nat) : Char :=
  if n < 10 then Char.ofNat (48 + n) else Char.ofNat (87 + n)

/-- Two-digit lowercase hex of one byte. -/
def byteToHex (b : Nat) : String :=
  String.mk [hexDigit (b / 16), hexDigit (b % 16)]

/-- Modelled from the spec: `get_sha256_hex_from_content` (imported by
`polyester/image.py` from `polyester/mount.py`, which is not among the
sources) returns the lowercase hexadecimal SHA-256 digest of the given
byte content (§4.1 ContentIdentity: deterministic SHA-256 semantics). -/
def get_sha256_hex_from_content (content : Bytes) : String :=
  String.join ((sha256 content).map byteToHex)

/-! ### Layer construction (`polyester/image.py`, `_make_bytes` and
`Layer.__init__`)

A Python value passed as a dockerfile command is textual (`str`), raw bytes
(`bytes`), or something else; `_make_bytes` asserts the form and encodes text
as ASCII, which fails on any character outside the ASCII range. -/

/-- The errors `Layer.__init__` can raise while normalizing commands:
the `assert type(s) in (str, bytes)` failure, and the `UnicodeEncodeError`
from `s.encode("ascii")` on non-ASCII text. -/
inductive ConstructionError where
  | assertionError : ConstructionError
  | unicodeEncodeError : ConstructionError
deriving DecidableEq, Repr

/-- A Python value supplied as one dockerfile command. -/
inductive PyVal where
  | str : String → PyVal
  | bytes : Bytes → PyVal
  | other : PyVal
deriving DecidableEq, Repr

/-- A string whose characters are all in the ASCII range. -/
def asciiStr (s : String) : Bool := s.data.all (fun c => c.toNat < 128)

/-- ASCII encoding of an ASCII string as bytes. -/
def encodeAscii (s : String) : Bytes := s.data.map (fun c => c.toNat)

/-- `_make_bytes`: assert the value is `str` or `bytes`; encode text as
ASCII. -/
def _make_bytes : PyVal → Except ConstructionError Bytes
  | .str s => if asciiStr s then .ok (encodeAscii s) else .error .unicodeEncodeError
  | .bytes b => .ok b
  | .other => .error .assertionError

/-- The `Layer` value as frozen by `Layer.__init__` into `self.args`:
`base_layers` and `context_files` are Python dicts, modelled as association
lists in insertion order. -/
inductive Layer where
  | mk : (local_id : String) → (tag : Option String) →
      (base_layers : List (String × Layer)) →
      (dockerfile_commands : List Bytes) →
      (context_files : List (String × Bytes)) →
      (must_create : Bool) → (localFlag : Bool) → Layer

/-- `args.local_id`. -/
def Layer.local_id : Layer → String
  | .mk lid _ _ _ _ _ _ => lid

/-- `args.tag`. -/
def Layer.tag : Layer → Option String
  | .mk _ t _ _ _ _ _ => t

/-- `args.base_layers`. -/
def Layer.base_layers : Layer → List (String × Layer)
  | .mk _ _ bls _ _ _ _ => bls

/-- `args.dockerfile_commands`. -/
def Layer.dockerfile_commands : Layer → List Bytes
  | .mk _ _ _ cmds _ _ _ => cmds

/-- `args.context_files`. -/
def Layer.context_files : Layer → List (String × Bytes)
  | .mk _ _ _ _ ctx _ _ => ctx

/-- `args.must_create`. -/
def Layer.must_create : Layer → Bool
  | .mk _ _ _ _ _ mc _ => mc

/-- `args.local`. -/
def Layer.localFlag : Layer → Bool
  | .mk _ _ _ _ _ _ lf => lf

/-- The body of `Layer.__init__` after line 30 has normalized the commands
to bytes: build `local_id_args` — one `"b:%s:(%s)"` entry per
`base_layers.items()`, then `"c:%s"` of the hash of the `b"\n"`-joined
commands, then one `"f:%s:%s"` entry per `context_files.items()` — and
freeze `args` with `local_id = ",".join(local_id_args)`. -/
def Layer.initBytes (tag : Option String) (base_layers : List (String × Layer))
    (dockerfile_commands : List Bytes) (context_files : List (String × Bytes))
    (must_create : Bool) (localFlag : Bool) : Layer :=
  let local_id_args :=
    base_layers.map (fun p => "b:" ++ p.1 ++ ":(" ++ p.2.local_id ++ ")") ++
    ("c:" ++ get_sha256_hex_from_content (List.intercalate [10] dockerfile_commands)) ::
    context_files.map (fun p => "f:" ++ p.1 ++ ":" ++ get_sha256_hex_from_content p.2)
  .mk (String.intercalate "," local_id_args) tag base_layers
    dockerfile_commands context_files must_create localFlag

/-- The comprehension `[_make_bytes(s) for s in dockerfile_commands]`:
left to right, the first exception propagating. -/
def makeBytesList : List PyVal → Except ConstructionError (List Bytes)
  | [] => .ok []
  | v :: rest => do
      let b ← _make_bytes v
      let bs ← makeBytesList rest
      return b :: bs

/-- `Layer.__init__`: normalize every command with `_make_bytes` (line 30;
any failure there propagates before anything else runs), then construct the
value. -/
def Layer.init (tag : Option String) (base_layers : List (String × Layer))
    (dockerfile_commands : List PyVal) (context_files : List (String × Bytes))
    (must_create : Bool) (localFlag : Bool) : Except ConstructionError Layer := do
  let cmds ← makeBytesList dockerfile_commands
  return Layer.initBytes tag base_layers cmds context_files must_create localFlag

/-- `Layer(tag=t)`: construction with only a tag, as used for the preset
base layers; all other arguments keep their defaults. -/
def Layer.ofTag (t : String) : Layer :=
  Layer.initBytes (some t) [] [] [] false false

/-- `Layer.is_inside`: compare the `POLYESTER_IMAGE_LOCAL_ID` environment
variable against `self.args.local_id`; `os.getenv` yields `None` when the
variable is absent, and in Python `None == <str>` is `False`. -/
def Layer.is_inside (getenv : String → Option String) (l : Layer) : Bool :=
  match getenv "POLYESTER_IMAGE_LOCAL_ID" with
  | none => false
  | some v => v == l.local_id

/-- The spec's description of `localId` (§3 of the spec, restated by C1):
the comma-separated concatenation, in this fixed order, of one
`"b:<alias>:(<base.localId>)"` entry per base-layer alias, then
`"c:<sha256 hex of the newline-joined command bytes>"`, then one
`"f:<filename>:<sha256 hex of content>"` entry per context file.  It is a
function of the base layers only through their alias and `localId`. -/
def localIdSpec (bases : List (String × String))
    (commands : List Bytes) (ctxFiles : List (String × Bytes)) : String :=
  String.intercalate ","
    (bases.map (fun p => "b:" ++ p.1 ++ ":(" ++ p.2 ++ ")") ++
     ("c:" ++ get_sha256_hex_from_content (List.intercalate [10] commands)) ::
     ctxFiles.map (fun p => "f:" ++ p.1 ++ ":" ++ get_sha256_hex_from_content p.2))

/-! ### Image presets (`DebianSlim`) -/

/-- A `DebianSlim` instance: a `Layer` constructed with
`tag = "python-<version>-slim-buster-base"` plus the remembered
`python_version`. -/
structure DebianSlim where
  python_version : String
  toLayer : Layer

/-- `DebianSlim.__init__` for an explicit `python_version`. -/
def DebianSlim.init (python_version : String) : DebianSlim :=
  ⟨python_version, Layer.ofTag ("python-" ++ python_version ++ "-slim-buster-base")⟩

/-- `DebianSlim.add_python_packages`: construct (pure graph construction,
no resolution) the two-stage layer with base layers
`{"base": self, "builder": Layer(tag="python-<v>-slim-buster-builder")}` and
the six generated dockerfile commands. -/
def DebianSlim.add_python_packages (d : DebianSlim) (python_packages : List String)
    (find_links : Option String) : Except ConstructionError Layer :=
  let find_links_arg := match find_links with
    | some f => if f = "" then "" else "-f " ++ f
    | none => ""
  Layer.init none
    [("base", d.toLayer),
     ("builder", Layer.ofTag ("python-" ++ d.python_version ++ "-slim-buster-builder"))]
    [.str "FROM builder as builder-vehicle",
     .str ("RUN pip wheel " ++ String.intercalate " " python_packages ++
           " -w /tmp/wheels " ++ find_links_arg),
     .str "FROM base",
     .str "COPY --from=builder-vehicle /tmp/wheels /tmp/wheels",
     .str "RUN pip install /tmp/wheels/*",
     .str "RUN rm -rf /tmp/wheels"]
    [] false false

/-! ### The join protocol (`Layer.create_or_get`, lines 89–106)

The `while True` loop issues `LayerJoin` requests; a falsy (zero) status is
PENDING and continues the loop, `FAILURE` raises a `RemoteException` with the
remote exception payload, `SUCCESS` breaks and the function returns the
`layer_id`, and any other status raises `RemoteException("Unknown status …")`.
The numeric values of `api_pb2.GenericResult.Status` are modelled from the
spec (`polyester/proto` is not among the sources): PENDING is the falsy zero
value, SUCCESS and FAILURE are distinct nonzero codes. -/

/-- Modelled from the spec: `api_pb2.GenericResult.Status.SUCCESS`
(the proto definitions are not among the sources; only its distinctness
from FAILURE and from the falsy PENDING value matters). -/
def STATUS_SUCCESS : Nat := 1

/-- Modelled from the spec: `api_pb2.GenericResult.Status.FAILURE`. -/
def STATUS_FAILURE : Nat := 2

/-- One `LayerJoinResponse.result`: the status code and the exception
payload (meaningful on FAILURE). -/
structure JoinResult where
  status : Nat
  exception : String
deriving DecidableEq, Repr

/-- Outcome of the join loop, with the number of join calls issued. -/
inductive JoinOutcome where
  | success : (layer_id : String) → (calls : Nat) → JoinOutcome
  | failure : (exception : String) → (calls : Nat) → JoinOutcome
  | protocolError : (message : String) → (calls : Nat) → JoinOutcome
  | exhausted : JoinOutcome
deriving DecidableEq, Repr

/-- Account one further join call in an outcome. -/
def JoinOutcome.addCall : JoinOutcome → JoinOutcome
  | .success lid n => .success lid (n + 1)
  | .failure e n => .failure e (n + 1)
  | .protocolError m n => .protocolError m (n + 1)
  | .exhausted => .exhausted

/-- The join loop of `create_or_get`, run against a scripted sequence of
responses (one response per issued `LayerJoin` call, in order).  `exhausted`
means the script ran out while the loop was still pending — in the source the
loop would simply keep polling. -/
def joinLoop (layer_id : String) : List JoinResult → JoinOutcome
  | [] => .exhausted
  | r :: rest =>
    if r.status = 0 then (joinLoop layer_id rest).addCall
    else if r.status = STATUS_FAILURE then .failure r.exception 1
    else if r.status = STATUS_SUCCESS then .success layer_id 1
    else .protocolError ("Unknown status " ++ toString r.status ++ "!") 1

/-! ### Resolution (`Layer.create_or_get` and the session's
`create_or_get_object`)

Layers here live in an arena (a list of nodes addressed by index) so that one
shared base-layer *instance* can be referenced by several parents — Python
object identity becomes arena-index identity.  The remote service is an
oracle supplied as data, and every issued request is recorded in a trace
(each get-or-create request also records which arena node issued it, so the
per-instance round trips can be counted). -/

/-- One arena node: the `args` of a `Layer`, with base layers referring to
other nodes by arena index. -/
structure ALayer where
  tag : Option String
  base_layers : List (String × Nat)
  dockerfile_commands : List Bytes
  context_files : List (String × Bytes)
  local_id : String
  must_create : Bool
  localFlag : Bool

/-- A request issued to the remote service.  `getOrCreate` carries the
fields of `LayerGetOrCreateRequest` (the resolved base-layer ids, commands,
context files, `local_id`, `local`, `must_create`) plus the arena index of
the layer being resolved. -/
inductive Request where
  | getByTag : (tag : String) → Request
  | getOrCreate : (node : Nat) → (base_layers : List (String × String)) →
      (dockerfile_commands : List Bytes) →
      (context_files : List (String × Bytes)) → (local_id : String) →
      (localFlag : Bool) → (must_create : Bool) → Request
  | join : (layer_id : String) → Request
deriving DecidableEq, Repr

/-- The remote service's responses, as deterministic oracles: the layer id
returned by `LayerGetByTag` for a tag, the job id returned by
`LayerGetOrCreate` (keyed by `local_id` and `must_create`), and the scripted
sequence of `LayerJoin` responses for a job id. -/
structure Env where
  getByTag : String → String
  getOrCreate : String → Bool → String
  joinScript : String → List JoinResult

/-- Resolver state: the session's memoized resolutions (arena index ↦
remote object id, newest first) and the trace of issued requests (newest
first). -/
structure ResolveState where
  cache : List (Nat × String)
  trace : List Request
deriving DecidableEq, Repr

/-- How a resolution run can fail: a `RemoteException` (build failure or
unknown status), a dangling arena index, out of recursion fuel, or the join
script ran out while still pending. -/
inductive ResolveError where
  | remote : String → ResolveError
  | badIndex : ResolveError
  | outOfFuel : ResolveError
  | scriptExhausted : ResolveError
deriving DecidableEq, Repr

/-- Python truthiness of the optional tag string, as tested by
`if self.args.tag:` (image.py line 53): the test is taken exactly when the
tag is present *and* nonempty — `None` and `""` are both falsy — and the
truthy tag is returned. -/
def truthyTag : Option String → Option String
  | some t => if t = "" then none else some t
  | none => none

/-- The tail of `create_or_get` (lines 89–106): run the join loop on the
obtained `layer_id` against the environment's script, recording one `join`
request per issued call; SUCCESS returns the id, FAILURE and unknown status
raise `RemoteException`. -/
def joinAndReturn (env : Env) (layer_id : String) (st : ResolveState) :
    Except ResolveError (String × ResolveState) :=
  match joinLoop layer_id (env.joinScript layer_id) with
  | .success lid n =>
      .ok (lid, { st with trace := List.replicate n (.join layer_id) ++ st.trace })
  | .failure e _ => .error (.remote e)
  | .protocolError m _ => .error (.remote m)
  | .exhausted => .error .scriptExhausted

mutual

/-- Modelled from the spec: `Session.create_or_get_object` (`session.py` is
not among the sources) — the resolution entry point that memoizes: a layer
resolves at most once per run, the remote identifier being cached on the
instance after first success and returned directly thereafter (spec §4.3
side effect, §3 invariants). -/
def create_or_get_object (arena : List ALayer) (env : Env) :
    Nat → Nat → ResolveState → Except ResolveError (String × ResolveState)
  | 0, _, _ => .error .outOfFuel
  | fuel + 1, idx, st =>
    match st.cache.lookup idx with
    | some oid => .ok (oid, st)
    | none =>
      match create_or_get arena env fuel idx st with
      | .ok (oid, st1) => .ok (oid, { st1 with cache := (idx, oid) :: st1.cache })
      | .error e => .error e

/-- `Layer.create_or_get`: a layer whose tag is truthy (`if self.args.tag:`
— present and nonempty) issues `LayerGetByTag`; otherwise the base layers
are resolved (through the session), one `LayerGetOrCreate` request is issued
with the layer definition payload, and either way the returned `layer_id`
is polled via the join loop. -/
def create_or_get (arena : List ALayer) (env : Env) :
    Nat → Nat → ResolveState → Except ResolveError (String × ResolveState)
  | 0, _, _ => .error .outOfFuel
  | fuel + 1, idx, st =>
    match arena[idx]? with
    | none => .error .badIndex
    | some l =>
      match truthyTag l.tag with
      | some t =>
          joinAndReturn env (env.getByTag t)
            { st with trace := .getByTag t :: st.trace }
      | none =>
          match resolveBases arena env fuel (l.base_layers.map Prod.snd) st with
          | .error e => .error e
          | .ok (ids, st1) =>
              let layer_id := env.getOrCreate l.local_id l.must_create
              let req := Request.getOrCreate idx
                ((l.base_layers.map Prod.fst).zip ids) l.dockerfile_commands
                l.context_files l.local_id l.localFlag l.must_create
              joinAndReturn env layer_id { st1 with trace := req :: st1.trace }

/-- The `asyncio.gather` over a layer's base layers, resolving each through
the session (sequentialized; the spec's §5 model is cooperative
single-threaded interleaving with fail-fast join). -/
def resolveBases (arena : List ALayer) (env : Env) :
    Nat → List Nat → ResolveState → Except ResolveError (List String × ResolveState)
  | _, [], st => .ok ([], st)
  | 0, _ :: _, _ => .error .outOfFuel
  | fuel + 1, j :: rest, st =>
    match create_or_get_object arena env fuel j st with
    | .error e => .error e
    | .ok (oid, st1) =>
      match resolveBases arena env fuel rest st1 with
      | .error e => .error e
      | .ok (ids, st2) => .ok (oid :: ids, st2)

end

/-- The arena's base-layer references all point to strictly earlier nodes
(the spec's §3 invariant that the base-layer graph is acyclic; a graph built
by `Layer.__init__` can only reference pre-existing layers). -/
def ArenaAcyclic (arena : List ALayer) : Prop :=
  ∀ (i : Nat) (l : ALayer), arena[i]? = some l → ∀ p ∈ l.base_layers, p.2 < i

/-- Whether a request is a get-or-create round trip issued for arena node
`j`. -/
def isGetOrCreateFor (j : Nat) : Request → Bool
  | .getOrCreate i _ _ _ _ _ _ => i == j
  | _ => false

/-- Number of get-or-create round trips issued for arena node `j` in a
trace. -/
def countGoC (tr : List Request) (j : Nat) : Nat :=
  tr.countP (isGetOrCreateFor j)

/-- Invariant of resolver states: every node has seen at most one
get-or-create round trip, and an unresolved (uncached) node has seen none. -/
def TraceOK (st : ResolveState) : Prop :=
  ∀ j, countGoC st.trace j ≤ 1 ∧
    (st.cache.lookup j = none → countGoC st.trace j = 0)

/-! ### Concrete scenarios used by witnesses and counterexamples -/

/-- Example layer used in the construction-order counterexample. -/
def cmdLayerA : Layer := Layer.initBytes none [] [[65]] [] false false

/-- Example layer used in the construction-order counterexample. -/
def cmdLayerB : Layer := Layer.initBytes none [] [[66]] [] false false

/-- A one-node arena holding a tag-named layer. -/
def arenaTag : List ALayer := [⟨some "t1", [], [], [], "X", false, false⟩]

/-- A one-node arena whose layer's tag is set but empty — falsy under
`if self.args.tag:`. -/
def arenaEmptyTag : List ALayer := [⟨some "", [], [[66]], [], "E", false, false⟩]

/-- A three-node arena: node 0 is a structural base layer shared by the two
parent layers at nodes 1 and 2. -/
def arenaShared : List ALayer :=
  [⟨none, [], [[66]], [], "B", false, false⟩,
   ⟨none, [("base", 0)], [[80]], [], "P1", false, false⟩,
   ⟨none, [("base", 0)], [[81]], [], "P2", false, false⟩]

/-- A well-behaved remote service: deterministic ids and a join script that
reports SUCCESS on the first poll. -/
def envOk : Env :=
  ⟨fun t => "tid-" ++ t, fun lid _ => "id-" ++ lid, fun _ => [⟨STATUS_SUCCESS, ""⟩]⟩

/-- Concatenation of ASCII strings is ASCII. -/
theorem asciiStr_append (a b : String) :
    asciiStr (a ++ b) = (asciiStr a && asciiStr b) := by
  simp [asciiStr, String.data_append, List.all_append]

/-- The accumulator loop of `String.intercalate` preserves ASCII-ness. -/
theorem asciiStr_go (s : String) (hs : asciiStr s = true) :
    ∀ (l : List String) (acc : String), asciiStr acc = true →
      (∀ p ∈ l, asciiStr p = true) →
      asciiStr (String.intercalate.go acc s l) = true := by
  intro l
  induction l with
  | nil => intro acc hacc _; simpa [String.intercalate.go] using hacc
  | cons a as ih =>
    intro acc hacc hl
    rw [String.intercalate.go]
    exact ih (acc ++ s ++ a)
      (by simp [asciiStr_append, hacc, hs, hl a (List.mem_cons_self a as)])
      (fun p hp => hl p (List.mem_cons_of_mem _ hp))

/-- Joining ASCII strings with an ASCII separator yields an ASCII
string. -/
theorem asciiStr_intercalate (s : String) (l : List String)
    (hs : asciiStr s = true) (hl : ∀ p ∈ l, asciiStr p = true) :
    asciiStr (String.intercalate s l) = true := by
  match l with
  | [] => rfl
  | a :: as =>
    rw [String.intercalate]
    exact asciiStr_go s hs as a (hl a (List.mem_cons_self a as))
      (fun p hp => hl p (List.mem_cons_of_mem _ hp))

/-- A successful join loop returns exactly the `layer_id` it was asked to
wait for. -/
theorem joinLoop_success_id :
    ∀ (s : List JoinResult) (a b : String) (n : Nat),
      joinLoop a s = .success b n → b = a := by
  intro s
  induction s with
  | nil => intro a b n h; cases h
  | cons r rest ih =>
    intro a b n h
    rw [joinLoop] at h
    by_cases h0 : r.status = 0
    · rw [if_pos h0] at h
      match hr : joinLoop a rest with
      | .success bb nn =>
        rw [hr] at h
        simp [JoinOutcome.addCall] at h
        rw [← h.1]
        exact ih a bb nn hr
      | .failure e nn => rw [hr] at h; cases h
      | .protocolError m nn => rw [hr] at h; cases h
      | .exhausted => rw [hr] at h; cases h
    · rw [if_neg h0] at h
      by_cases hf : r.status = STATUS_FAILURE
      · rw [if_pos hf] at h; cases h
      · rw [if_neg hf] at h
        by_cases hs : r.status = STATUS_SUCCESS
        · rw [if_pos hs] at h; cases h; rfl
        · rw [if_neg hs] at h; cases h

/-- What a successful `joinAndReturn` yields: the polled `layer_id` itself,
an unchanged cache, and a trace extended by one `join` request per issued
call. -/
theorem joinAndReturn_ok {env : Env} {lid : String} {st : ResolveState}
    {oid : String} {st' : ResolveState}
    (h : joinAndReturn env lid st = .ok (oid, st')) :
    oid = lid ∧ st'.cache = st.cache ∧
      ∃ n, st'.trace = List.replicate n (.join lid) ++ st.trace := by
  unfold joinAndReturn at h
  match hr : joinLoop lid (env.joinScript lid) with
  | .success b n =>
    rw [hr] at h
    cases h
    exact ⟨joinLoop_success_id _ _ _ _ hr, rfl, n, rfl⟩
  | .failure e n => rw [hr] at h; cases h
  | .protocolError m n => rw [hr] at h; cases h
  | .exhausted => rw [hr] at h; cases h

/-- Counting get-or-create requests: cons step. -/
theorem countGoC_cons (r : Request) (tr : List Request) (j : Nat) :
    countGoC (r :: tr) j = countGoC tr j + (if isGetOrCreateFor j r then 1 else 0) :=
  List.countP_cons _ _ _

/-- Counting get-or-create requests: append. -/
theorem countGoC_append (t1 t2 : List Request) (j : Nat) :
    countGoC (t1 ++ t2) j = countGoC t1 j + countGoC t2 j :=
  List.countP_append _ _ _

/-- Join polls never count as get-or-create round trips. -/
theorem countGoC_replicate_join (n : Nat) (lid : String) (j : Nat) :
    countGoC (List.replicate n (.join lid)) j = 0 := by
  induction n with
  | zero => rfl
  | succ n ih => simp [List.replicate_succ, countGoC_cons, isGetOrCreateFor, ih]

/-- Cache lookup after caching the looked-up node. -/
theorem lookupCons_self (k : Nat) (v : String) (c : List (Nat × String)) :
    ((k, v) :: c).lookup k = some v := by simp [List.lookup]

/-- Cache lookup after caching a different node. -/
theorem lookupCons_ne {j k : Nat} (h : j ≠ k) (v : String) (c : List (Nat × String)) :
    ((k, v) :: c).lookup j = c.lookup j := by
  rw [List.lookup]
  have : (j == k) = false := by simpa using h
  rw [this]

/-- The shared-base arena is acyclic. -/
theorem arenaShared_acyclic : ArenaAcyclic arenaShared := by
  intro i l h p hp
  match i with
  | 0 =>
    simp [arenaShared] at h
    subst h
    simp at hp
  | 1 =>
    simp [arenaShared] at h
    subst h
    simp at hp
    subst hp
    decide
  | 2 =>
    simp [arenaShared] at h
    subst h
    simp at hp
    subst hp
    decide
  | n + 3 => simp [arenaShared] at h

/-- The memoization invariant of one resolution run, by induction on fuel:
along any successful resolution (i) every node sees at most one
get-or-create round trip, an uncached node having seen none; (ii) resolving
node `idx` leaves cache entries and round-trip counts of nodes above `idx`
untouched (by acyclicity the recursion only descends); and (iii) the cache
only grows.  The three conjuncts cover `create_or_get_object`,
`create_or_get` (on an uncached node, as called by the former) and
`resolveBases` (for a list of nodes below a bound). -/
theorem resolver_invariant :
    ∀ fuel : Nat,
      (∀ (arena : List ALayer) (env : Env) (idx : Nat) (st : ResolveState)
         (oid : String) (st' : ResolveState),
        ArenaAcyclic arena → TraceOK st →
        create_or_get_object arena env fuel idx st = .ok (oid, st') →
        TraceOK st' ∧
          (∀ j, idx < j → st'.cache.lookup j = st.cache.lookup j) ∧
          (∀ j, idx < j → countGoC st'.trace j = countGoC st.trace j) ∧
          (∀ j v, st.cache.lookup j = some v → st'.cache.lookup j = some v)) ∧
      (∀ (arena : List ALayer) (env : Env) (idx : Nat) (st : ResolveState)
         (oid : String) (st' : ResolveState),
        ArenaAcyclic arena → TraceOK st → st.cache.lookup idx = none →
        create_or_get arena env fuel idx st = .ok (oid, st') →
        (∀ j, j ≠ idx → countGoC st'.trace j ≤ 1 ∧
            (st'.cache.lookup j = none → countGoC st'.trace j = 0)) ∧
          countGoC st'.trace idx ≤ 1 ∧
          (∀ j, idx ≤ j → st'.cache.lookup j = st.cache.lookup j) ∧
          (∀ j, idx < j → countGoC st'.trace j = countGoC st.trace j) ∧
          (∀ j v, st.cache.lookup j = some v → st'.cache.lookup j = some v)) ∧
      (∀ (arena : List ALayer) (env : Env) (b : Nat) (L : List Nat)
         (st : ResolveState) (ids : List String) (st' : ResolveState),
        ArenaAcyclic arena → TraceOK st → (∀ j ∈ L, j < b) →
        resolveBases arena env fuel L st = .ok (ids, st') →
        TraceOK st' ∧
          (∀ j, b ≤ j → st'.cache.lookup j = st.cache.lookup j) ∧
          (∀ j, b ≤ j → countGoC st'.trace j = countGoC st.trace j) ∧
          (∀ j v, st.cache.lookup j = some v → st'.cache.lookup j = some v)) := by
  intro fuel
  induction fuel with
  | zero =>
    refine ⟨?_, ?_, ?_⟩
    · intro arena env idx st oid st' _ _ h
      simp [create_or_get_object] at h
    · intro arena env idx st oid st' _ _ _ h
      simp [create_or_get] at h
    · intro arena env b L st ids st' _ hT _ h
      match L with
      | [] =>
        rw [resolveBases] at h
        cases h
        exact ⟨hT, fun j _ => rfl, fun j _ => rfl, fun j v hv => hv⟩
      | j0 :: rest => simp [resolveBases] at h
  | succ fuel ih =>
    obtain ⟨ihObj, ihCg, ihBases⟩ := ih
    refine ⟨?_, ?_, ?_⟩
    · -- create_or_get_object: cache hit, or resolve and then cache
      intro arena env idx st oid st' hA hT h
      rw [create_or_get_object] at h
      cases hc : st.cache.lookup idx with
      | some o =>
        rw [hc] at h
        cases h
        exact ⟨hT, fun j _ => rfl, fun j _ => rfl, fun j v hv => hv⟩
      | none =>
        rw [hc] at h
        cases hg : create_or_get arena env fuel idx st with
        | error e => rw [hg] at h; cases h
        | ok p =>
          obtain ⟨o, st1⟩ := p
          obtain ⟨g1, g2, g3, g4, g5⟩ := ihCg arena env idx st o st1 hA hT hc hg
          rw [hg] at h
          cases h
          refine ⟨?_, ?_, ?_, ?_⟩
          · intro j
            by_cases hj : j = idx
            · subst hj
              refine ⟨g2, fun hnone => ?_⟩
              rw [lookupCons_self] at hnone
              cases hnone
            · obtain ⟨ha1, ha2⟩ := g1 j hj
              refine ⟨ha1, fun hn => ha2 ?_⟩
              rwa [lookupCons_ne hj] at hn
          · intro j hj
            have hne : j ≠ idx := by omega
            rw [lookupCons_ne hne]
            exact g3 j (le_of_lt hj)
          · intro j hj
            exact g4 j hj
          · intro j v hv
            have hne : j ≠ idx := fun he => by rw [he, hc] at hv; cases hv
            rw [lookupCons_ne hne]
            exact g5 j v hv
    · -- create_or_get: tag branch, or bases-then-get-or-create branch
      intro arena env idx st oid st' hA hT hun h
      rw [create_or_get] at h
      cases ha : arena[idx]? with
      | none => rw [ha] at h; cases h
      | some l =>
        rw [ha] at h
        cases ht : truthyTag l.tag with
        | some t =>
          simp only [ht] at h
          obtain ⟨hoid, hcache, n, htrace⟩ := joinAndReturn_ok h
          have hcnt : ∀ j, countGoC st'.trace j = countGoC st.trace j := by
            intro j
            rw [htrace, countGoC_append, countGoC_replicate_join, countGoC_cons]
            simp [isGetOrCreateFor]
          refine ⟨?_, ?_, ?_, ?_, ?_⟩
          · intro j _
            rw [hcnt j, hcache]
            exact hT j
          · rw [hcnt idx, (hT idx).2 hun]
            exact Nat.zero_le 1
          · intro j _
            rw [hcache]
          · intro j _
            exact hcnt j
          · intro j v hv
            rw [hcache]
            exact hv
        | none =>
          simp only [ht] at h
          cases hb : resolveBases arena env fuel (l.base_layers.map Prod.snd) st with
          | error e => rw [hb] at h; cases h
          | ok q =>
            obtain ⟨ids, st1⟩ := q
            rw [hb] at h
            simp only [] at h
            have hbnd : ∀ j ∈ l.base_layers.map Prod.snd, j < idx := by
              intro j hj
              obtain ⟨p, hp, hpj⟩ := List.mem_map.mp hj
              rw [← hpj]
              exact hA idx l ha p hp
            obtain ⟨b1, b2, b3, b4⟩ :=
              ihBases arena env idx (l.base_layers.map Prod.snd) st ids st1 hA hT hbnd hb
            obtain ⟨hoid, hcache, n, htrace⟩ := joinAndReturn_ok h
            have hcnt : ∀ j, countGoC st'.trace j =
                countGoC st1.trace j + (if idx = j then 1 else 0) := by
              intro j
              rw [htrace, countGoC_append, countGoC_replicate_join, countGoC_cons]
              simp [isGetOrCreateFor]
            have hc1idx : countGoC st1.trace idx = 0 := by
              rw [b3 idx le_rfl]
              exact (hT idx).2 hun
            refine ⟨?_, ?_, ?_, ?_, ?_⟩
            · intro j hj
              have hcj : countGoC st'.trace j = countGoC st1.trace j := by
                rw [hcnt j, if_neg (fun he => hj he.symm), Nat.add_zero]
              obtain ⟨p1, p2⟩ := b1 j
              refine ⟨by rw [hcj]; exact p1, fun hn => ?_⟩
              rw [hcj]
              exact p2 (by rwa [hcache] at hn)
            · rw [hcnt idx, if_pos rfl, hc1idx]
            · intro j hj
              rw [hcache]
              exact b2 j hj
            · intro j hj
              rw [hcnt j, if_neg (by omega), Nat.add_zero]
              exact b3 j (le_of_lt hj)
            · intro j v hv
              rw [hcache]
              exact b4 j v hv
    · -- resolveBases: empty list, or head-then-rest
      intro arena env b L st ids st' hA hT hbnd h
      match L with
      | [] =>
        rw [resolveBases] at h
        cases h
        exact ⟨hT, fun j _ => rfl, fun j _ => rfl, fun j v hv => hv⟩
      | j0 :: rest =>
        rw [resolveBases] at h
        cases ho : create_or_get_object arena env fuel j0 st with
        | error e => rw [ho] at h; cases h
        | ok p =>
          obtain ⟨oid0, st1⟩ := p
          rw [ho] at h
          simp only [] at h
          cases hr : resolveBases arena env fuel rest st1 with
          | error e => rw [hr] at h; cases h
          | ok q =>
            obtain ⟨ids1, st2⟩ := q
            have hj0 : j0 < b := hbnd j0 (List.mem_cons_self _ _)
            obtain ⟨o1, o2, o3, o4⟩ := ihObj arena env j0 st oid0 st1 hA hT ho
            obtain ⟨r1, r2, r3, r4⟩ := ihBases arena env b rest st1 ids1 st2 hA o1
              (fun j hj => hbnd j (List.mem_cons_of_mem _ hj)) hr
            rw [hr] at h
            cases h
            refine ⟨r1, ?_, ?_, fun j v hv => r4 j v (o4 j v hv)⟩
            · intro j hj
              rw [r2 j hj, o2 j (lt_of_lt_of_le hj0 hj)]
            · intro j hj
              rw [r3 j hj, o3 j (lt_of_lt_of_le hj0 hj)]

/-! ### Construction lemmas -/

/-- Reading `local_id` off a constructed layer yields exactly the spec's
concatenation, as a function of the base layers' aliases and `local_id`s,
the commands and the context files. -/
theorem Layer.local_id_initBytes (tag : Option String)
    (bls : List (String × Layer)) (cmds : List Bytes)
    (ctx : List (String × Bytes)) (mc lf : Bool) :
    (Layer.initBytes tag bls cmds ctx mc lf).local_id =
      localIdSpec (bls.map (fun p => (p.1, p.2.local_id))) cmds ctx := by
  simp [Layer.initBytes, localIdSpec, Layer.local_id, List.map_map]
  rfl

/-- Computation rule: binding an `ok` value. -/
theorem exBindOk {α β : Type} (a : α) (f : α → Except ConstructionError β) :
    (Except.ok a >>= f) = f a := rfl

/-- Computation rule: binding an `error` short-circuits. -/
theorem exBindErr {α β : Type} (e : ConstructionError)
    (f : α → Except ConstructionError β) :
    ((Except.error e : Except ConstructionError α) >>= f) = .error e := rfl

/-- Supplying every command as raw bytes normalizes to exactly those
bytes. -/
theorem makeBytesList_bytes (bs : List Bytes) :
    makeBytesList (bs.map PyVal.bytes) = .ok bs := by
  induction bs with
  | nil => rfl
  | cons b rest ih => simp [makeBytesList, _make_bytes, ih, exBindOk]

/-- A command that is neither textual nor byte form makes normalization
fail (with whatever error comes first). -/
theorem makeBytesList_other {inputs : List PyVal} (h : PyVal.other ∈ inputs) :
    ∃ e, makeBytesList inputs = .error e := by
  induction inputs with
  | nil => cases h
  | cons v rest ih =>
    cases h with
    | head => exact ⟨.assertionError, rfl⟩
    | tail _ hm =>
      match hv : _make_bytes v with
      | .error e => exact ⟨e, by simp [makeBytesList, hv, exBindErr]⟩
      | .ok b =>
        obtain ⟨e, he⟩ := ih hm
        exact ⟨e, by simp [makeBytesList, hv, he, exBindOk]⟩

/-- If every command is textual or byte form and some textual command has a
character outside the ASCII range, normalization fails with the encoding
error. -/
theorem makeBytesList_nonascii {inputs : List PyVal}
    (hforms : ∀ v ∈ inputs, v ≠ PyVal.other)
    (hbad : ∃ s, PyVal.str s ∈ inputs ∧ asciiStr s = false) :
    makeBytesList inputs = .error .unicodeEncodeError := by
  induction inputs with
  | nil => obtain ⟨s, hs, _⟩ := hbad; cases hs
  | cons v rest ih =>
    obtain ⟨s, hs, hna⟩ := hbad
    match v with
    | .other => exact absurd rfl (hforms _ (List.mem_cons_self _ _))
    | .bytes b =>
      have hrest : PyVal.str s ∈ rest := by
        cases hs with
        | tail _ hm => exact hm
      have := ih (fun w hw => hforms w (List.mem_cons_of_mem _ hw)) ⟨s, hrest, hna⟩
      simp [makeBytesList, _make_bytes, this, exBindOk]
    | .str t =>
      by_cases ht : asciiStr t
      · have hts : s ≠ t := fun h => by subst h; rw [ht] at hna; cases hna
        have hrest : PyVal.str s ∈ rest := by
          cases hs with
          | head => exact absurd rfl hts
          | tail _ hm => exact hm
        have := ih (fun w hw => hforms w (List.mem_cons_of_mem _ hw)) ⟨s, hrest, hna⟩
        simp [makeBytesList, _make_bytes, ht, this, exBindOk]
      · simp [makeBytesList, _make_bytes, ht, exBindErr]

end Polyester

namespace PolyesterClaims

open Polyester

/-- C1: for every `Layer` constructed from
`{tag, baseLayers, commands, contextFiles, mustCreate, local}`, its
`local_id` is the comma-separated concatenation, in this fixed order, of one
`"b:<alias>:(<base.localId>)"` entry per base-layer alias in `baseLayers`
order, then `"c:<sha256 hex of the newline-joined command bytes>"`, then one
`"f:<filename>:<sha256 hex of content>"` entry per context file — a function
of structural content only (the bases enter only through alias and
`local_id`; no remotely-assigned identifier is in scope at construction). -/
theorem local_id_is_structural_concatenation :
    ∀ (tag : Option String) (bls : List (String × Layer)) (cmds : List Bytes)
      (ctx : List (String × Bytes)) (mc lf : Bool),
      (Layer.initBytes tag bls cmds ctx mc lf).local_id =
        localIdSpec (bls.map (fun p => (p.1, p.2.local_id))) cmds ctx :=
  fun tag bls cmds ctx mc lf => Layer.local_id_initBytes tag bls cmds ctx mc lf

/-- C4 (counterexample): two layers built from base-layer mappings that are
structurally identical as dicts (one is a permutation of the other — same
alias/value pairs) but inserted in a different order get different
`local_id`s, refuting insertion-order independence. -/
theorem local_id_insertion_order_matters :
    List.Perm [("a", cmdLayerA), ("b", cmdLayerB)]
      [("b", cmdLayerB), ("a", cmdLayerA)] ∧
    (Layer.initBytes none [("a", cmdLayerA), ("b", cmdLayerB)] [] [] false false).local_id ≠
      (Layer.initBytes none [("b", cmdLayerB), ("a", cmdLayerA)] [] [] false false).local_id := by
  constructor
  · exact List.Perm.swap _ _ _
  · decide

/-- C4 (amended): `local_id` is independent of base-layer object identity —
it depends on the `baseLayers` mapping only through its insertion-order
sequence of (alias, base `local_id`) pairs — and of `tag`, `mustCreate` and
`local`; the insertion order of the mappings, however, does affect it. -/
theorem local_id_independent_of_instances :
    ∀ (tag₁ tag₂ : Option String) (bls₁ bls₂ : List (String × Layer))
      (cmds : List Bytes) (ctx : List (String × Bytes)) (mc₁ mc₂ lf₁ lf₂ : Bool),
      bls₁.map (fun p => (p.1, p.2.local_id)) =
          bls₂.map (fun p => (p.1, p.2.local_id)) →
      (Layer.initBytes tag₁ bls₁ cmds ctx mc₁ lf₁).local_id =
        (Layer.initBytes tag₂ bls₂ cmds ctx mc₂ lf₂).local_id := by
  intro tag₁ tag₂ bls₁ bls₂ cmds ctx mc₁ mc₂ lf₁ lf₂ h
  rw [Layer.local_id_initBytes, Layer.local_id_initBytes, h]

/-- C4 (witness): two single-entry base mappings holding *different* layer
values with equal `local_id` (the second base also sets `must_create`, so it
is not the same instance) yield equal `local_id`s for the parents. -/
theorem local_id_independent_of_instances_witness :
    (Layer.initBytes none [("a", Layer.initBytes none [] [[65]] [] false false)]
        [] [] false false).local_id =
      (Layer.initBytes (some "t") [("a", Layer.initBytes none [] [[65]] [] true true)]
        [] [] true true).local_id :=
  local_id_independent_of_instances none (some "t") _ _ [] [] false true false true
    (by decide)

/-- C9: hashing the commands as one newline-joined blob makes the
one-command sequence `["a\nb"]` and the two-command sequence `["a", "b"]`
collide: the two layers have different command lists but identical
`local_id`. -/
theorem newline_joined_commands_collide :
    (Layer.initBytes none [] [[97, 10, 98]] [] false false).local_id =
      (Layer.initBytes none [] [[97], [98]] [] false false).local_id ∧
    (Layer.initBytes none [] [[97, 10, 98]] [] false false).dockerfile_commands ≠
      (Layer.initBytes none [] [[97], [98]] [] false false).dockerfile_commands := by
  exact ⟨rfl, by decide⟩

/-- C2: the join loop is a PENDING/SUCCESS/FAILURE state machine: on the
scripted responses `[PENDING, PENDING, SUCCESS]` it issues exactly three
join calls and returns the resolved identifier; on `[PENDING, FAILURE]` it
issues exactly two calls and raises carrying the remote-supplied diagnostic
payload; on any unrecognized status value it raises a protocol error after
that single call, consulting no further responses. -/
theorem join_protocol_state_machine :
    (∀ (lid e₁ e₂ e₃ : String),
      joinLoop lid [⟨0, e₁⟩, ⟨0, e₂⟩, ⟨STATUS_SUCCESS, e₃⟩] = .success lid 3) ∧
    (∀ (lid e₁ exc : String),
      joinLoop lid [⟨0, e₁⟩, ⟨STATUS_FAILURE, exc⟩] = .failure exc 2) ∧
    (∀ (lid exc : String) (s : Nat) (rest : List JoinResult),
      s ≠ 0 → s ≠ STATUS_FAILURE → s ≠ STATUS_SUCCESS →
      joinLoop lid (⟨s, exc⟩ :: rest) =
        .protocolError ("Unknown status " ++ toString s ++ "!") 1) := by
  refine ⟨fun lid e₁ e₂ e₃ => ?_, fun lid e₁ exc => ?_,
    fun lid exc s rest h0 hf hs => ?_⟩
  · simp [joinLoop, STATUS_SUCCESS, STATUS_FAILURE, JoinOutcome.addCall]
  · simp [joinLoop, STATUS_SUCCESS, STATUS_FAILURE, JoinOutcome.addCall]
  · simp [joinLoop, h0, hf, hs]

/-- C2 (witness): the three scripted scenarios at concrete inputs, the
unrecognized status being `7` with a nonempty remaining script. -/
theorem join_protocol_state_machine_witness :
    joinLoop "lay" [⟨0, ""⟩, ⟨0, ""⟩, ⟨STATUS_SUCCESS, ""⟩] = .success "lay" 3 ∧
    joinLoop "lay" [⟨0, ""⟩, ⟨STATUS_FAILURE, "boom"⟩] = .failure "boom" 2 ∧
    joinLoop "lay" [⟨7, "x"⟩, ⟨0, ""⟩] = .protocolError "Unknown status 7!" 1 :=
  ⟨join_protocol_state_machine.1 "lay" "" "" "",
   join_protocol_state_machine.2.1 "lay" "" "boom",
   join_protocol_state_machine.2.2 "lay" "x" 7 [⟨0, ""⟩]
     (by decide) (by decide) (by decide)⟩

/-- C6: a textual ASCII command is normalized by ASCII encoding; a command
sequence that normalizes to bytes `bs` constructs the very layer obtained by
supplying every command as bytes (so mixing forms does not change
`local_id`); and a command that is neither textual nor byte form makes
construction fail synchronously (the model performs no network activity at
all during construction). -/
theorem command_form_normalization :
    (∀ s : String, asciiStr s = true → _make_bytes (.str s) = .ok (encodeAscii s)) ∧
    (∀ (tag : Option String) (bls : List (String × Layer)) (inputs : List PyVal)
       (bs : List Bytes) (ctx : List (String × Bytes)) (mc lf : Bool),
      makeBytesList inputs = .ok bs →
      Layer.init tag bls inputs ctx mc lf =
        .ok (Layer.initBytes tag bls bs ctx mc lf)) ∧
    (∀ (tag : Option String) (bls : List (String × Layer)) (bs : List Bytes)
       (ctx : List (String × Bytes)) (mc lf : Bool),
      Layer.init tag bls (bs.map PyVal.bytes) ctx mc lf =
        .ok (Layer.initBytes tag bls bs ctx mc lf)) ∧
    (∀ (tag : Option String) (bls : List (String × Layer)) (inputs : List PyVal)
       (ctx : List (String × Bytes)) (mc lf : Bool),
      PyVal.other ∈ inputs →
      ∃ e, Layer.init tag bls inputs ctx mc lf = .error e) := by
  refine ⟨fun s hs => by simp [_make_bytes, hs],
    fun tag bls inputs bs ctx mc lf h => by simp [Layer.init, h, exBindOk],
    fun tag bls bs ctx mc lf => by
      simp [Layer.init, makeBytesList_bytes, exBindOk],
    fun tag bls inputs ctx mc lf h => ?_⟩
  obtain ⟨e, he⟩ := makeBytesList_other h
  exact ⟨e, by simp [Layer.init, he, exBindErr]⟩

/-- C6 (witness): the mixed sequence `[str "a", bytes [98]]` constructs the
same layer as the all-bytes sequence `[[97], [98]]`, and a non-form command
fails construction. -/
theorem command_form_normalization_witness :
    _make_bytes (.str "a") = .ok (encodeAscii "a") ∧
    Layer.init none [] [.str "a", .bytes [98]] [] false false =
      .ok (Layer.initBytes none [] [[97], [98]] [] false false) ∧
    Layer.init none [] ([[97], [98]].map PyVal.bytes) [] false false =
      .ok (Layer.initBytes none [] [[97], [98]] [] false false) ∧
    ∃ e, Layer.init none [] [.bytes [97], .other] [] false false = .error e :=
  ⟨command_form_normalization.1 "a" (by decide),
   command_form_normalization.2.1 none [] [.str "a", .bytes [98]] [[97], [98]]
     [] false false rfl,
   command_form_normalization.2.2.1 none [] [[97], [98]] [] false false,
   command_form_normalization.2.2.2 none [] [.bytes [97], .other] [] false false
     (by decide)⟩

/-- C10: a textual command containing a character outside the ASCII range
makes construction raise the encoding error synchronously (no network
activity exists in construction), even when every supplied command is in an
accepted form. -/
theorem nonascii_text_command_fails_construction :
    ∀ (tag : Option String) (bls : List (String × Layer)) (inputs : List PyVal)
      (ctx : List (String × Bytes)) (mc lf : Bool),
      (∀ v ∈ inputs, v ≠ PyVal.other) →
      (∃ s, PyVal.str s ∈ inputs ∧ asciiStr s = false) →
      Layer.init tag bls inputs ctx mc lf = .error .unicodeEncodeError := by
  intro tag bls inputs ctx mc lf hforms hbad
  simp [Layer.init, makeBytesList_nonascii hforms hbad, exBindErr]

/-- C10 (witness): `["RUN café"]` — textual, one non-ASCII character —
fails construction with the encoding error. -/
theorem nonascii_text_command_fails_construction_witness :
    Layer.init none [] [.str "RUN café"] [] false false =
      .error .unicodeEncodeError :=
  nonascii_text_command_fails_construction none [] [.str "RUN café"] [] false false
    (by decide) ⟨"RUN café", by decide, by decide⟩

/-- C3: within one resolution run (which starts with an empty cache), every
layer instance — in particular a base layer shared by two or more parents —
sees at most one remote get-or-create round trip, the identifier being
cached on first success; and in the concrete shared-base scenario (node 0
shared by parents 1 and 2) resolving both parents performs exactly one
get-or-create call for the shared base while both parents still resolve. -/
theorem shared_base_resolved_once :
    (∀ (arena : List ALayer) (env : Env) (fuel b : Nat) (L : List Nat)
       (ids : List String) (st' : ResolveState),
      ArenaAcyclic arena → (∀ j ∈ L, j < b) →
      resolveBases arena env fuel L ⟨[], []⟩ = .ok (ids, st') →
      ∀ j, countGoC st'.trace j ≤ 1) ∧
    Except.map (fun p => (p.1, countGoC p.2.trace 0))
        (resolveBases arenaShared envOk 10 [1, 2] ⟨[], []⟩) =
      .ok (["id-P1", "id-P2"], 1) := by
  constructor
  · intro arena env fuel b L ids st' hA hbnd h j
    have hT0 : TraceOK ⟨[], []⟩ := fun j => ⟨Nat.zero_le 1, fun _ => rfl⟩
    exact (((resolver_invariant fuel).2.2 arena env b L ⟨[], []⟩ ids st'
      hA hT0 hbnd h).1 j).1
  · rfl

/-- C3 (witness): the general bound applied to the concrete shared-base
run — the final trace contains at most one get-or-create for the shared
node 0 (the second conjunct of the theorem pins it to exactly one). -/
theorem shared_base_resolved_once_witness :
    countGoC [Request.join "id-P2",
      Request.getOrCreate 2 [("base", "id-B")] [[81]] [] "P2" false false,
      Request.join "id-P1",
      Request.getOrCreate 1 [("base", "id-B")] [[80]] [] "P1" false false,
      Request.join "id-B",
      Request.getOrCreate 0 [] [[66]] [] "B" false false] 0 ≤ 1 :=
  shared_base_resolved_once.1 arenaShared envOk 10 3 [1, 2] ["id-P1", "id-P2"]
    ⟨[(2, "id-P2"), (1, "id-P1"), (0, "id-B")],
     [Request.join "id-P2",
      Request.getOrCreate 2 [("base", "id-B")] [[81]] [] "P2" false false,
      Request.join "id-P1",
      Request.getOrCreate 1 [("base", "id-B")] [[80]] [] "P1" false false,
      Request.join "id-B",
      Request.getOrCreate 0 [] [[66]] [] "B" false false]⟩
    arenaShared_acyclic (by decide) rfl 0

/-- C5 (counterexample): a layer whose tag is *set but empty* refutes the
claim as stated — `if self.args.tag:` is a truthiness test, so `tag=""`
takes the structural branch: resolving it succeeds with a trace holding one
`GetOrCreate` round trip for the node (and no `GetByTag` at all). -/
theorem tag_resolution_empty_tag_counterexample :
    arenaEmptyTag.map ALayer.tag = [some ""] ∧
    create_or_get arenaEmptyTag envOk 10 0 ⟨[], []⟩ =
      .ok ("id-E", ⟨[], [Request.join "id-E",
        Request.getOrCreate 0 [] [[66]] [] "E" false false]⟩) ∧
    countGoC [Request.join "id-E",
      Request.getOrCreate 0 [] [[66]] [] "E" false false] 0 = 1 ∧
    List.countP (fun r => match r with | Request.getByTag _ => true | _ => false)
      [Request.join "id-E",
       Request.getOrCreate 0 [] [[66]] [] "E" false false] = 0 :=
  ⟨rfl, rfl, rfl, rfl⟩

/-- C5 (amended): resolving a layer whose tag is set *to a nonempty string*
(the truthy case of `if self.args.tag:`) issues one `GetByTag` request and
then only join polls — never a `GetOrCreate` (so no creation side effect),
never a base-layer resolution (the cache is untouched and no other request
appears) — and the tag lookup's response is the remote identifier
returned. -/
theorem tag_resolution_only_get_by_tag :
    ∀ (arena : List ALayer) (env : Env) (fuel idx : Nat) (l : ALayer)
      (t : String) (st : ResolveState) (oid : String) (st' : ResolveState),
      arena[idx]? = some l → l.tag = some t → t ≠ "" →
      create_or_get arena env fuel idx st = .ok (oid, st') →
      oid = env.getByTag t ∧ st'.cache = st.cache ∧
        ∃ n, st'.trace =
          List.replicate n (.join (env.getByTag t)) ++ .getByTag t :: st.trace := by
  intro arena env fuel idx l t st oid st' ha ht hne h
  match fuel with
  | 0 => cases h
  | fuel + 1 =>
    rw [create_or_get, ha] at h
    have htr : truthyTag l.tag = some t := by
      rw [ht, truthyTag, if_neg hne]
    simp only [htr] at h
    obtain ⟨h1, h2, n, h3⟩ := joinAndReturn_ok h
    exact ⟨h1, h2, n, h3⟩

/-- C5 (witness): the one-node nonempty-tag arena against the well-behaved
service — the returned identifier is the tag lookup's response, the cache
is untouched, and the trace is one join poll after the single `GetByTag`. -/
theorem tag_resolution_only_get_by_tag_witness :
    "tid-t1" = envOk.getByTag "t1" ∧
    (⟨[], [Request.join "tid-t1", Request.getByTag "t1"]⟩ : ResolveState).cache =
      (⟨[], []⟩ : ResolveState).cache ∧
    ∃ n, (⟨[], [Request.join "tid-t1", Request.getByTag "t1"]⟩ : ResolveState).trace =
      List.replicate n (Request.join (envOk.getByTag "t1")) ++
        Request.getByTag "t1" :: (⟨[], []⟩ : ResolveState).trace :=
  tag_resolution_only_get_by_tag arenaTag envOk 10 0
    ⟨some "t1", [], [], [], "X", false, false⟩ "t1" ⟨[], []⟩ "tid-t1"
    ⟨[], [Request.join "tid-t1", Request.getByTag "t1"]⟩ rfl rfl (by decide) rfl

/-- C7: `is_inside` is true exactly when the `POLYESTER_IMAGE_LOCAL_ID`
environment marker is present and equals the layer's `local_id` (so in
particular it is false whenever the marker is absent). -/
theorem is_inside_iff_marker_matches :
    ∀ (getenv : String → Option String) (l : Layer),
      l.is_inside getenv = true ↔
        getenv "POLYESTER_IMAGE_LOCAL_ID" = some l.local_id := by
  intro g l
  unfold Layer.is_inside
  cases h : g "POLYESTER_IMAGE_LOCAL_ID" with
  | none => simp
  | some v => simp [beq_iff_eq]

/-- C8 (counterexample): `add_python_packages` does not construct a layer
for *every* package list — a package name with a character outside the ASCII
range makes the generated `pip wheel` command fail ASCII normalization, so
construction raises instead of constructing. -/
theorem add_python_packages_nonascii_counterexample :
    DebianSlim.add_python_packages (DebianSlim.init "3.9") ["café"] none =
      .error .unicodeEncodeError := rfl

/-- C8 (amended): for every package list and optional find-links whose text
is ASCII, `add_python_packages` constructs — by pure graph construction,
with no resolution step in sight — the two-stage layer whose base mapping
holds the receiver under alias `"base"` and the tag-only `"builder"` layer,
and whose command sequence builds wheels in the builder stage and copies and
installs them into the base stage. -/
theorem add_python_packages_two_stage :
    ∀ (pv : String) (pkgs : List String) (fl : Option String),
      (∀ p ∈ pkgs, asciiStr p = true) →
      (∀ f, fl = some f → asciiStr f = true) →
      DebianSlim.add_python_packages (DebianSlim.init pv) pkgs fl =
        .ok (Layer.initBytes none
          [("base", (DebianSlim.init pv).toLayer),
           ("builder", Layer.ofTag ("python-" ++ pv ++ "-slim-buster-builder"))]
          [encodeAscii "FROM builder as builder-vehicle",
           encodeAscii ("RUN pip wheel " ++ String.intercalate " " pkgs ++
             " -w /tmp/wheels " ++
             (match fl with
              | some f => if f = "" then "" else "-f " ++ f
              | none => "")),
           encodeAscii "FROM base",
           encodeAscii "COPY --from=builder-vehicle /tmp/wheels /tmp/wheels",
           encodeAscii "RUN pip install /tmp/wheels/*",
           encodeAscii "RUN rm -rf /tmp/wheels"]
          [] false false) := by
  intro pv pkgs fl hp hf
  have l1 : asciiStr "RUN pip wheel " = true := by decide
  have l2 : asciiStr " -w /tmp/wheels " = true := by decide
  have c1 : asciiStr "FROM builder as builder-vehicle" = true := by decide
  have c3 : asciiStr "FROM base" = true := by decide
  have c4 : asciiStr "COPY --from=builder-vehicle /tmp/wheels /tmp/wheels" = true := by
    decide
  have c5 : asciiStr "RUN pip install /tmp/wheels/*" = true := by decide
  have c6 : asciiStr "RUN rm -rf /tmp/wheels" = true := by decide
  have hpk : asciiStr (String.intercalate " " pkgs) = true :=
    asciiStr_intercalate " " pkgs (by decide) hp
  cases fl with
  | none =>
    have h2 : asciiStr ("RUN pip wheel " ++ String.intercalate " " pkgs ++
        " -w /tmp/wheels ") = true := by
      simp [asciiStr_append, l1, l2, hpk]
    simp [DebianSlim.add_python_packages, DebianSlim.init, Layer.init,
      makeBytesList, _make_bytes, c1, h2, c3, c4, c5, c6, exBindOk]
  | some f =>
    by_cases hf0 : f = ""
    · subst hf0
      have h2 : asciiStr ("RUN pip wheel " ++ String.intercalate " " pkgs ++
          " -w /tmp/wheels ") = true := by
        simp [asciiStr_append, l1, l2, hpk]
      simp [DebianSlim.add_python_packages, DebianSlim.init, Layer.init,
        makeBytesList, _make_bytes, c1, h2, c3, c4, c5, c6, exBindOk]
    · have h2 : asciiStr ("RUN pip wheel " ++ String.intercalate " " pkgs ++
          " -w /tmp/wheels " ++ ("-f " ++ f)) = true := by
        have hdf : asciiStr "-f " = true := by decide
        simp [asciiStr_append, l1, l2, hpk, hdf, hf f rfl]
      simp [DebianSlim.add_python_packages, DebianSlim.init, Layer.init,
        makeBytesList, _make_bytes, c1, h2, c3, c4, c5, c6, exBindOk, hf0]

/-- C8 (witness): concrete ASCII packages with a find-links URL produce the
expected two-stage layer. -/
theorem add_python_packages_two_stage_witness :
    DebianSlim.add_python_packages (DebianSlim.init "3.9") ["numpy", "pandas"]
        (some "https://pypi.org/simple") =
      .ok (Layer.initBytes none
        [("base", (DebianSlim.init "3.9").toLayer),
         ("builder", Layer.ofTag ("python-" ++ "3.9" ++ "-slim-buster-builder"))]
        [encodeAscii "FROM builder as builder-vehicle",
         encodeAscii ("RUN pip wheel " ++
           String.intercalate " " ["numpy", "pandas"] ++ " -w /tmp/wheels " ++
           (match some "https://pypi.org/simple" with
            | some f => if f = "" then "" else "-f " ++ f
            | none => "")),
         encodeAscii "FROM base",
         encodeAscii "COPY --from=builder-vehicle /tmp/wheels /tmp/wheels",
         encodeAscii "RUN pip install /tmp/wheels/*",
         encodeAscii "RUN rm -rf /tmp/wheels"]
        [] false false) :=
  add_python_packages_two_stage "3.9" ["numpy", "pandas"]
    (some "https://pypi.org/simple") (by decide)
    (by intro f h; cases h; decide)

end PolyesterClaims
